import Mathlib

/-!
Verification development for the `MinioClientWrapper` facade (client.py).

The wrapper resolves MinIO credentials from three ordered sources
(explicit constructor arguments, a Kubernetes secret, an Azure Key Vault
secret) and then delegates seven storage operations to the underlying
`Minio` client.  The external collaborators (the Kubernetes API, the Azure
SDK, base64/JSON decoding, and the MinIO server) are modelled as oracle
structures whose fields can return any `Except` outcome; the wrapper logic
itself is translated statement by statement from the source.
-/

/-- Python truthiness of an optional string argument: `None` and the empty
string are falsy, every other string is truthy.  Used to model the
`if not endpoint or not access_key or not secret_key` tests as well as the
`if secret_name and namespace` / `if keyvault_name` guards. -/
def truthy : Option String → Bool
  | none => false
  | some s => decide (s ≠ "")

/-- A triple of optional strings: `(endpoint, access_key, secret_key)` as it
flows through `__init__`, where any component may be `None`. -/
abbrev Triple := Option String × Option String × Option String

/-- All three components present and non-empty (Python truthy). -/
def completeTriple (t : Triple) : Bool :=
  truthy t.1 && truthy t.2.1 && truthy t.2.2

/-- Model of a Kubernetes secret object: its `data` dictionary maps keys to
base64-encoded payloads; indexing a missing key raises `KeyError`. -/
structure K8sSecret where
  data : String → Option String

/-- Model of a parsed JSON record: `get` returns the value at a key or
`None`, matching Python `dict.get`. -/
structure Json where
  get : String → Option String

/-- Oracle for every external effect reached from credential resolution.
Each field corresponds to one failure-capable step of `_get_k8s_secret` or
`_get_azure_keyvault_secret`; an `Except.error` models that step raising an
exception. -/
structure CredWorld where
  loadInclusterConfig : Except String Unit
  readNamespacedSecret : String → String → Except String K8sSecret
  b64decodeUtf8 : String → Except String String
  jsonLoads : String → Except String Json
  defaultAzureCredential : Except String Unit
  getVaultSecret : String → String → Except String String

/-- The body of `_get_k8s_secret`'s `try` block: load the in-cluster config,
read the named secret in the named namespace, index its data at key
`minio`, base64-decode, JSON-parse, and extract `host`/`id`/`secret` via
`dict.get`.  An `Except.error` is an exception escaping the `try` block. -/
def getK8sSecretTry (w : CredWorld) (secret_name nspace : String) :
    Except String Triple :=
  match w.loadInclusterConfig with
  | Except.error e => Except.error e
  | Except.ok _ =>
    match w.readNamespacedSecret secret_name nspace with
    | Except.error e => Except.error e
    | Except.ok secret =>
      match secret.data ("minio") with
      | none => Except.error ("KeyError: minio")
      | some raw =>
        match w.b64decodeUtf8 raw with
        | Except.error e => Except.error e
        | Except.ok decoded =>
          match w.jsonLoads decoded with
          | Except.error e => Except.error e
          | Except.ok secret_data =>
            Except.ok (secret_data.get ("host"), secret_data.get ("id"),
              secret_data.get ("secret"))

/-- `_get_k8s_secret`: the `try` body with `except Exception: return
None, None, None`. -/
def getK8sSecret (w : CredWorld) (secret_name nspace : String) : Triple :=
  match getK8sSecretTry w secret_name nspace with
  | Except.ok t => t
  | Except.error _ => (none, none, none)

/-- The body of `_get_azure_keyvault_secret`'s `try` block: build the
default credential, form the vault URL from the vault name, fetch the
fixed-name secret `minio-credentials`, JSON-parse its value, and extract
`host`/`id`/`secret`. -/
def getAzureKeyvaultSecretTry (w : CredWorld) (keyvault_name : String) :
    Except String Triple :=
  match w.defaultAzureCredential with
  | Except.error e => Except.error e
  | Except.ok _ =>
    match w.getVaultSecret ("https://" ++ keyvault_name ++ ".vault.azure.net")
        ("minio-credentials") with
    | Except.error e => Except.error e
    | Except.ok value =>
      match w.jsonLoads value with
      | Except.error e => Except.error e
      | Except.ok secret_data =>
        Except.ok (secret_data.get ("host"), secret_data.get ("id"),
          secret_data.get ("secret"))

/-- `_get_azure_keyvault_secret`: the `try` body with `except Exception:
return None, None, None`. -/
def getAzureKeyvaultSecret (w : CredWorld) (keyvault_name : String) : Triple :=
  match getAzureKeyvaultSecretTry w keyvault_name with
  | Except.ok t => t
  | Except.error _ => (none, none, none)

/-- The constructed `Minio(...)` client, recording the constructor
arguments it was built with. -/
structure Minio where
  endpoint : Option String
  access_key : Option String
  secret_key : Option String
  secure : Bool
  cert_check : Bool
deriving DecidableEq

/-- Which fallback lookup methods `__init__` actually invoked. -/
inductive CredSource
  | k8s
  | keyvault
deriving DecidableEq

/-- The `ValueError` message raised when every source is exhausted. -/
def credentialsErrorMsg : String :=
  "MinIO credentials could not be found in provided arguments, Kubernetes secrets, or Azure Key Vault."

/-- Lines 12-13 of `__init__`: if the explicit triple is not fully truthy,
replace it wholesale by the Kubernetes lookup when both `secret_name` and
`namespace` are truthy, and by `(None, None, None)` otherwise.  Also
records whether the Kubernetes lookup was invoked. -/
def initStep1 (w : CredWorld)
    (endpoint access_key secret_key secret_name nspace : Option String) :
    Triple × List CredSource :=
  if !truthy endpoint || !truthy access_key || !truthy secret_key then
    if truthy secret_name && truthy nspace then
      (getK8sSecret w (secret_name.getD ("")) (nspace.getD ("")),
        [CredSource.k8s])
    else ((none, none, none), [])
  else ((endpoint, access_key, secret_key), [])

/-- Lines 15-16 of `__init__`: if the triple is still not fully truthy,
replace it wholesale by the Key Vault lookup when `keyvault_name` is
truthy, and by `(None, None, None)` otherwise. -/
def initStep2 (w : CredWorld) (t : Triple) (keyvault_name : Option String) :
    Triple × List CredSource :=
  if !truthy t.1 || !truthy t.2.1 || !truthy t.2.2 then
    if truthy keyvault_name then
      (getAzureKeyvaultSecret w (keyvault_name.getD ("")),
        [CredSource.keyvault])
    else ((none, none, none), [])
  else (t, [])

/-- `MinioClientWrapper.__init__`: run both fallback steps, raise
`ValueError` if the final triple is still incomplete, otherwise construct
the `Minio` client from it.  The second component is the list of fallback
lookups that were invoked, in order. -/
def initWrapper (w : CredWorld)
    (endpoint access_key secret_key secret_name nspace keyvault_name :
      Option String) (secure cert_check : Bool) :
    Except String Minio × List CredSource :=
  let r1 := initStep1 w endpoint access_key secret_key secret_name nspace
  let r2 := initStep2 w r1.1 keyvault_name
  if !truthy r2.1.1 || !truthy r2.1.2.1 || !truthy r2.1.2.2 then
    (Except.error credentialsErrorMsg, r1.2 ++ r2.2)
  else
    (Except.ok ⟨r2.1.1, r2.1.2.1, r2.1.2.2, secure, cert_check⟩,
      r1.2 ++ r2.2)

/-- An object yielded by the underlying client's `list_objects`, carrying
its `object_name` attribute. -/
structure MinioObj where
  object_name : String
deriving DecidableEq

/-- Oracle for the underlying `Minio` client's methods over an abstract
client/server state `σ`.  Each method either raises (`Except.error`) or
returns its result together with the successor state. -/
structure MinioAPI (σ : Type) where
  bucket_exists : σ → String → Except String (Bool × σ)
  make_bucket : σ → String → Except String σ
  remove_bucket : σ → String → Except String σ
  fput_object : σ → String → String → String → Except String σ
  fget_object : σ → String → String → String → Except String σ
  list_objects : σ → String → Option String → Except String (List MinioObj × σ)
  remove_object : σ → String → String → Except String σ

/-- One invocation of an underlying client method, with its arguments. -/
inductive ApiCall
  | bucket_exists (bucket_name : String)
  | make_bucket (bucket_name : String)
  | remove_bucket (bucket_name : String)
  | fput_object (bucket_name object_name file_path : String)
  | fget_object (bucket_name object_name file_path : String)
  | list_objects (bucket_name : String) (pre : Option String)
  | remove_object (bucket_name object_name : String)
deriving DecidableEq

namespace MinioClientWrapper

/-- `bucket_exists`: single delegation to the client. -/
def bucket_exists {σ : Type} (api : MinioAPI σ) (s : σ) (bucket_name : String) :
    Except String (Bool × σ) × List ApiCall :=
  (api.bucket_exists s bucket_name, [ApiCall.bucket_exists bucket_name])

/-- `create_bucket`: `if not self.bucket_exists(name): self.client.make_bucket(name)`.
An exception from the existence check propagates before `make_bucket` is
reached. -/
def create_bucket {σ : Type} (api : MinioAPI σ) (s : σ) (bucket_name : String) :
    Except String σ × List ApiCall :=
  match bucket_exists api s bucket_name with
  | (Except.error e, t) => (Except.error e, t)
  | (Except.ok (b, s1), t) =>
    if !b then
      match api.make_bucket s1 bucket_name with
      | Except.error e => (Except.error e, t ++ [ApiCall.make_bucket bucket_name])
      | Except.ok s2 => (Except.ok s2, t ++ [ApiCall.make_bucket bucket_name])
    else (Except.ok s1, t)

/-- `upload_file`: single delegation to `fput_object`. -/
def upload_file {σ : Type} (api : MinioAPI σ) (s : σ)
    (bucket_name object_name file_path : String) :
    Except String σ × List ApiCall :=
  (api.fput_object s bucket_name object_name file_path,
    [ApiCall.fput_object bucket_name object_name file_path])

/-- `download_file`: single delegation to `fget_object`. -/
def download_file {σ : Type} (api : MinioAPI σ) (s : σ)
    (bucket_name object_name file_path : String) :
    Except String σ × List ApiCall :=
  (api.fget_object s bucket_name object_name file_path,
    [ApiCall.fget_object bucket_name object_name file_path])

/-- `list_objects`: single delegation, mapping each yielded object to its
`object_name` (the list comprehension on line 64). -/
def list_objects {σ : Type} (api : MinioAPI σ) (s : σ) (bucket_name : String)
    (pre : Option String) :
    Except String (List String × σ) × List ApiCall :=
  (match api.list_objects s bucket_name pre with
   | Except.error e => Except.error e
   | Except.ok (objs, s1) => Except.ok (objs.map (fun o => o.object_name), s1),
   [ApiCall.list_objects bucket_name pre])

/-- `delete_object`: single delegation to `remove_object`. -/
def delete_object {σ : Type} (api : MinioAPI σ) (s : σ)
    (bucket_name object_name : String) :
    Except String σ × List ApiCall :=
  (api.remove_object s bucket_name object_name,
    [ApiCall.remove_object bucket_name object_name])

/-- `delete_bucket`: single delegation to `remove_bucket`. -/
def delete_bucket {σ : Type} (api : MinioAPI σ) (s : σ) (bucket_name : String) :
    Except String σ × List ApiCall :=
  (api.remove_bucket s bucket_name, [ApiCall.remove_bucket bucket_name])

end MinioClientWrapper

/-- Number of underlying `make_bucket` (creation) calls in a trace. -/
def creationCalls (t : List ApiCall) : Nat :=
  (t.filter fun c =>
    match c with
    | ApiCall.make_bucket _ => true
    | _ => false).length

/-- Reference model of the external S3-compatible server, tracking only the
set of existing buckets: `bucket_exists` reports membership and
`make_bucket` adds the bucket (failing, as the real server does, when it
already exists).  Object-level operations do not affect bucket existence. -/
def minioModel : MinioAPI (List String) where
  bucket_exists s b := Except.ok (s.contains b, s)
  make_bucket s b :=
    if s.contains b then Except.error ("BucketAlreadyOwnedByYou")
    else Except.ok (b :: s)
  remove_bucket s b := Except.ok (s.erase b)
  fput_object s _ _ _ := Except.ok s
  fget_object s _ _ _ := Except.ok s
  list_objects s _ _ := Except.ok ([], s)
  remove_object s _ _ := Except.ok s

/-- A concrete JSON record shaped like the expected secret payload. -/
def okJson : Json where
  get k :=
    if k = "host" then some ("minio.local")
    else if k = "id" then some ("AK")
    else if k = "secret" then some ("SK")
    else none

/-- A concrete world in which every external credential step succeeds and
both payloads parse to `okJson`. -/
def okWorld : CredWorld where
  loadInclusterConfig := Except.ok ()
  readNamespacedSecret _ _ :=
    Except.ok ⟨fun k => if k = "minio" then some ("eyJob3N0IjogLi4ufQ==") else none⟩
  b64decodeUtf8 _ := Except.ok ("decoded-payload")
  jsonLoads _ := Except.ok okJson
  defaultAzureCredential := Except.ok ()
  getVaultSecret _ _ := Except.ok ("vault-payload")

/-- A concrete world in which every external credential step raises. -/
def failWorld : CredWorld where
  loadInclusterConfig := Except.error ("ConfigException")
  readNamespacedSecret _ _ := Except.error ("ApiException")
  b64decodeUtf8 _ := Except.error ("binascii.Error")
  jsonLoads _ := Except.error ("JSONDecodeError")
  defaultAzureCredential := Except.error ("CredentialUnavailableError")
  getVaultSecret _ _ := Except.error ("ResourceNotFoundError")

/-- A concrete underlying client on a trivial state in which every method
raises `S3Error`. -/
def failApi : MinioAPI Unit where
  bucket_exists _ _ := Except.error ("S3Error")
  make_bucket _ _ := Except.error ("S3Error")
  remove_bucket _ _ := Except.error ("S3Error")
  fput_object _ _ _ _ := Except.error ("S3Error")
  fget_object _ _ _ _ := Except.error ("S3Error")
  list_objects _ _ _ := Except.error ("S3Error")
  remove_object _ _ _ := Except.error ("S3Error")

/-- A concrete underlying client whose `list_objects` yields two objects
under the `docs/` prefix. -/
def listApi : MinioAPI Unit where
  bucket_exists _ _ := Except.ok (true, ())
  make_bucket _ _ := Except.ok ()
  remove_bucket _ _ := Except.ok ()
  fput_object _ _ _ _ := Except.ok ()
  fget_object _ _ _ _ := Except.ok ()
  list_objects _ _ _ :=
    Except.ok ([⟨("docs/a.txt")⟩, ⟨("docs/b.txt")⟩], ())
  remove_object _ _ _ := Except.ok ()

/-- De Morgan for the three-way `or not` guards used in `__init__`. -/
lemma bnot_or_bnot (a b c : Bool) : (!a || !b || !c) = !(a && b && c) := by
  cases a <;> cases b <;> cases c <;> rfl

/-- The guard of lines 12/15/18 over a packed triple. -/
lemma guard_eq (t : Triple) :
    (!truthy t.1 || !truthy t.2.1 || !truthy t.2.2) = !completeTriple t := by
  unfold completeTriple
  exact bnot_or_bnot _ _ _

/-- The guard of lines 12/15/18 over three separate components. -/
lemma guard_eq3 (x y z : Option String) :
    (!truthy x || !truthy y || !truthy z) = !completeTriple (x, y, z) := by
  unfold completeTriple
  exact bnot_or_bnot _ _ _

lemma initStep1_explicit {e a s : Option String} (w : CredWorld)
    (sn ns : Option String) (h : completeTriple (e, a, s) = true) :
    initStep1 w e a s sn ns = ((e, a, s), []) := by
  unfold initStep1
  rw [guard_eq3, h]
  simp

lemma initStep1_k8s {e a s sn ns : Option String} (w : CredWorld)
    (h : completeTriple (e, a, s) = false)
    (hg : (truthy sn && truthy ns) = true) :
    initStep1 w e a s sn ns =
      (getK8sSecret w (sn.getD ("")) (ns.getD ("")), [CredSource.k8s]) := by
  unfold initStep1
  rw [guard_eq3, h, hg]
  simp

lemma initStep1_skip {e a s sn ns : Option String} (w : CredWorld)
    (h : completeTriple (e, a, s) = false)
    (hg : (truthy sn && truthy ns) = false) :
    initStep1 w e a s sn ns = ((none, none, none), []) := by
  unfold initStep1
  rw [guard_eq3, h, hg]
  simp

lemma initStep2_complete {t : Triple} (w : CredWorld) (kv : Option String)
    (h : completeTriple t = true) :
    initStep2 w t kv = (t, []) := by
  unfold initStep2
  rw [guard_eq, h]
  simp

lemma initStep2_kv {t : Triple} {kv : Option String} (w : CredWorld)
    (h : completeTriple t = false) (hg : truthy kv = true) :
    initStep2 w t kv =
      (getAzureKeyvaultSecret w (kv.getD ("")), [CredSource.keyvault]) := by
  unfold initStep2
  rw [guard_eq, h, hg]
  simp

lemma initStep2_skip {t : Triple} {kv : Option String} (w : CredWorld)
    (h : completeTriple t = false) (hg : truthy kv = false) :
    initStep2 w t kv = ((none, none, none), []) := by
  unfold initStep2
  rw [guard_eq, h, hg]
  simp

lemma initWrapper_of_steps {w : CredWorld}
    {e a s sn ns kv : Option String} {secure cc : Bool}
    {t1 t2 : Triple} {log1 log2 : List CredSource}
    (h1 : initStep1 w e a s sn ns = (t1, log1))
    (h2 : initStep2 w t1 kv = (t2, log2)) :
    initWrapper w e a s sn ns kv secure cc =
      if completeTriple t2 then
        (Except.ok ⟨t2.1, t2.2.1, t2.2.2, secure, cc⟩, log1 ++ log2)
      else
        (Except.error credentialsErrorMsg, log1 ++ log2) := by
  unfold initWrapper
  rw [h1]
  simp only
  rw [h2]
  simp only
  rw [guard_eq]
  cases h : completeTriple t2 <;> simp

/-- Leaf case: explicit arguments complete. -/
lemma initWrapper_explicit {e a s : Option String} (w : CredWorld)
    (sn ns kv : Option String) (secure cc : Bool)
    (h : completeTriple (e, a, s) = true) :
    initWrapper w e a s sn ns kv secure cc =
      (Except.ok ⟨e, a, s, secure, cc⟩, []) := by
  rw [initWrapper_of_steps (initStep1_explicit w sn ns h)
    (initStep2_complete w kv h), h]
  simp

/-- Leaf case: explicit incomplete, Kubernetes gate open, Kubernetes lookup
complete. -/
lemma initWrapper_k8s_wins {e a s sn ns : Option String} (w : CredWorld)
    (kv : Option String) (secure cc : Bool)
    (h : completeTriple (e, a, s) = false)
    (hg : (truthy sn && truthy ns) = true)
    (hk : completeTriple (getK8sSecret w (sn.getD ("")) (ns.getD (""))) = true) :
    initWrapper w e a s sn ns kv secure cc =
      (Except.ok ⟨(getK8sSecret w (sn.getD ("")) (ns.getD (""))).1,
        (getK8sSecret w (sn.getD ("")) (ns.getD (""))).2.1,
        (getK8sSecret w (sn.getD ("")) (ns.getD (""))).2.2, secure, cc⟩,
       [CredSource.k8s]) := by
  rw [initWrapper_of_steps (initStep1_k8s w h hg)
    (initStep2_complete w kv hk), hk]
  simp

/-- Leaf case: explicit incomplete, Kubernetes gate open but lookup
incomplete, Key Vault gate open and lookup complete. -/
lemma initWrapper_k8s_then_kv_wins {e a s sn ns kv : Option String}
    (w : CredWorld) (secure cc : Bool)
    (h : completeTriple (e, a, s) = false)
    (hg : (truthy sn && truthy ns) = true)
    (hk : completeTriple (getK8sSecret w (sn.getD ("")) (ns.getD (""))) = false)
    (hvg : truthy kv = true)
    (hv : completeTriple (getAzureKeyvaultSecret w (kv.getD (""))) = true) :
    initWrapper w e a s sn ns kv secure cc =
      (Except.ok ⟨(getAzureKeyvaultSecret w (kv.getD (""))).1,
        (getAzureKeyvaultSecret w (kv.getD (""))).2.1,
        (getAzureKeyvaultSecret w (kv.getD (""))).2.2, secure, cc⟩,
       [CredSource.k8s, CredSource.keyvault]) := by
  rw [initWrapper_of_steps (initStep1_k8s w h hg)
    (initStep2_kv w hk hvg), hv]
  simp

/-- Leaf case: explicit incomplete, Kubernetes gate open but lookup
incomplete, Key Vault gate open and lookup incomplete: error. -/
lemma initWrapper_k8s_then_kv_fail {e a s sn ns kv : Option String}
    (w : CredWorld) (secure cc : Bool)
    (h : completeTriple (e, a, s) = false)
    (hg : (truthy sn && truthy ns) = true)
    (hk : completeTriple (getK8sSecret w (sn.getD ("")) (ns.getD (""))) = false)
    (hvg : truthy kv = true)
    (hv : completeTriple (getAzureKeyvaultSecret w (kv.getD (""))) = false) :
    initWrapper w e a s sn ns kv secure cc =
      (Except.error credentialsErrorMsg,
       [CredSource.k8s, CredSource.keyvault]) := by
  rw [initWrapper_of_steps (initStep1_k8s w h hg)
    (initStep2_kv w hk hvg), hv]
  simp

/-- Leaf case: explicit incomplete, Kubernetes gate open but lookup
incomplete, Key Vault gate closed: error. -/
lemma initWrapper_k8s_then_skip {e a s sn ns kv : Option String}
    (w : CredWorld) (secure cc : Bool)
    (h : completeTriple (e, a, s) = false)
    (hg : (truthy sn && truthy ns) = true)
    (hk : completeTriple (getK8sSecret w (sn.getD ("")) (ns.getD (""))) = false)
    (hvg : truthy kv = false) :
    initWrapper w e a s sn ns kv secure cc =
      (Except.error credentialsErrorMsg, [CredSource.k8s]) := by
  rw [initWrapper_of_steps (initStep1_k8s w h hg) (initStep2_skip w hk hvg)]
  simp [completeTriple, truthy]

/-- Leaf case: explicit incomplete, Kubernetes gate closed, Key Vault gate
open and lookup complete. -/
lemma initWrapper_kv_wins {e a s sn ns kv : Option String}
    (w : CredWorld) (secure cc : Bool)
    (h : completeTriple (e, a, s) = false)
    (hg : (truthy sn && truthy ns) = false)
    (hvg : truthy kv = true)
    (hv : completeTriple (getAzureKeyvaultSecret w (kv.getD (""))) = true) :
    initWrapper w e a s sn ns kv secure cc =
      (Except.ok ⟨(getAzureKeyvaultSecret w (kv.getD (""))).1,
        (getAzureKeyvaultSecret w (kv.getD (""))).2.1,
        (getAzureKeyvaultSecret w (kv.getD (""))).2.2, secure, cc⟩,
       [CredSource.keyvault]) := by
  have hnone : completeTriple ((none, none, none) : Triple) = false := rfl
  rw [initWrapper_of_steps (initStep1_skip w h hg)
    (initStep2_kv w hnone hvg), hv]
  simp

/-- Leaf case: explicit incomplete, Kubernetes gate closed, Key Vault gate
open and lookup incomplete: error. -/
lemma initWrapper_kv_fail {e a s sn ns kv : Option String}
    (w : CredWorld) (secure cc : Bool)
    (h : completeTriple (e, a, s) = false)
    (hg : (truthy sn && truthy ns) = false)
    (hvg : truthy kv = true)
    (hv : completeTriple (getAzureKeyvaultSecret w (kv.getD (""))) = false) :
    initWrapper w e a s sn ns kv secure cc =
      (Except.error credentialsErrorMsg, [CredSource.keyvault]) := by
  have hnone : completeTriple ((none, none, none) : Triple) = false := rfl
  rw [initWrapper_of_steps (initStep1_skip w h hg)
    (initStep2_kv w hnone hvg), hv]
  simp

/-- Leaf case: explicit incomplete and both gates closed: error. -/
lemma initWrapper_all_skip {e a s sn ns kv : Option String}
    (w : CredWorld) (secure cc : Bool)
    (h : completeTriple (e, a, s) = false)
    (hg : (truthy sn && truthy ns) = false)
    (hvg : truthy kv = false) :
    initWrapper w e a s sn ns kv secure cc =
      (Except.error credentialsErrorMsg, []) := by
  have hnone : completeTriple ((none, none, none) : Triple) = false := rfl
  rw [initWrapper_of_steps (initStep1_skip w h hg)
    (initStep2_skip w hnone hvg)]
  simp [completeTriple, truthy]

/-- Any error returned by `__init__` is the exhaustion `ValueError`. -/
lemma initWrapper_error_msg (w : CredWorld) (e a s sn ns kv : Option String)
    (secure cc : Bool) (m : String)
    (h : (initWrapper w e a s sn ns kv secure cc).1 = Except.error m) :
    m = credentialsErrorMsg := by
  by_cases h1 : completeTriple (e, a, s) = true
  · rw [initWrapper_explicit w sn ns kv secure cc h1] at h
    simp at h
  · have h1f : completeTriple (e, a, s) = false := by simpa using h1
    by_cases hg : (truthy sn && truthy ns) = true
    · by_cases hk :
        completeTriple (getK8sSecret w (sn.getD ("")) (ns.getD (""))) = true
      · rw [initWrapper_k8s_wins w kv secure cc h1f hg hk] at h
        simp at h
      · have hkf : completeTriple (getK8sSecret w (sn.getD ("")) (ns.getD (""))) =
            false := by simpa using hk
        by_cases hvg : truthy kv = true
        · by_cases hv :
            completeTriple (getAzureKeyvaultSecret w (kv.getD (""))) = true
          · rw [initWrapper_k8s_then_kv_wins w secure cc h1f hg hkf hvg hv] at h
            simp at h
          · have hvf : completeTriple (getAzureKeyvaultSecret w (kv.getD (""))) =
                false := by simpa using hv
            rw [initWrapper_k8s_then_kv_fail w secure cc h1f hg hkf hvg hvf] at h
            simp at h
            exact h.symm
        · have hvgf : truthy kv = false := by simpa using hvg
          rw [initWrapper_k8s_then_skip w secure cc h1f hg hkf hvgf] at h
          simp at h
          exact h.symm
    · have hgf : (truthy sn && truthy ns) = false := by simpa using hg
      by_cases hvg : truthy kv = true
      · by_cases hv :
          completeTriple (getAzureKeyvaultSecret w (kv.getD (""))) = true
        · rw [initWrapper_kv_wins w secure cc h1f hgf hvg hv] at h
          simp at h
        · have hvf : completeTriple (getAzureKeyvaultSecret w (kv.getD (""))) =
              false := by simpa using hv
          rw [initWrapper_kv_fail w secure cc h1f hgf hvg hvf] at h
          simp at h
          exact h.symm
      · have hvgf : truthy kv = false := by simpa using hvg
        rw [initWrapper_all_skip w secure cc h1f hgf hvgf] at h
        simp at h
        exact h.symm

/-- C1: credential resolution is short-circuiting by priority.  If the
explicit arguments are complete, the client is built from them and neither
fallback lookup is invoked (the consultation log is empty); if the
explicit arguments are incomplete and the Kubernetes lookup is consulted
and yields a complete triple, the client is built from exactly that triple
and the Key Vault lookup is not invoked; if neither of the earlier sources
yields a complete triple and the Key Vault lookup yields one, the client is
built from exactly that triple; and conversely any constructed client's
triple is the yield of the first complete source. -/
theorem c1_credential_resolution_short_circuits (w : CredWorld)
    (e a s sn ns kv : Option String) (secure cc : Bool) :
    (completeTriple (e, a, s) = true →
      initWrapper w e a s sn ns kv secure cc =
        (Except.ok ⟨e, a, s, secure, cc⟩, [])) ∧
    (completeTriple (e, a, s) = false → (truthy sn && truthy ns) = true →
      completeTriple (getK8sSecret w (sn.getD ("")) (ns.getD (""))) = true →
      initWrapper w e a s sn ns kv secure cc =
        (Except.ok ⟨(getK8sSecret w (sn.getD ("")) (ns.getD (""))).1,
          (getK8sSecret w (sn.getD ("")) (ns.getD (""))).2.1,
          (getK8sSecret w (sn.getD ("")) (ns.getD (""))).2.2, secure, cc⟩,
         [CredSource.k8s])) ∧
    (completeTriple (e, a, s) = false →
      ((truthy sn && truthy ns) = true →
        completeTriple (getK8sSecret w (sn.getD ("")) (ns.getD (""))) = false) →
      truthy kv = true →
      completeTriple (getAzureKeyvaultSecret w (kv.getD (""))) = true →
      (initWrapper w e a s sn ns kv secure cc).1 =
        Except.ok ⟨(getAzureKeyvaultSecret w (kv.getD (""))).1,
          (getAzureKeyvaultSecret w (kv.getD (""))).2.1,
          (getAzureKeyvaultSecret w (kv.getD (""))).2.2, secure, cc⟩) ∧
    (∀ c : Minio, (initWrapper w e a s sn ns kv secure cc).1 = Except.ok c →
      (completeTriple (e, a, s) = true ∧
        (c.endpoint, c.access_key, c.secret_key) = (e, a, s)) ∨
      (completeTriple (e, a, s) = false ∧ (truthy sn && truthy ns) = true ∧
        completeTriple (getK8sSecret w (sn.getD ("")) (ns.getD (""))) = true ∧
        (c.endpoint, c.access_key, c.secret_key) =
          getK8sSecret w (sn.getD ("")) (ns.getD (""))) ∨
      (completeTriple (e, a, s) = false ∧
        ((truthy sn && truthy ns) = true →
          completeTriple (getK8sSecret w (sn.getD ("")) (ns.getD (""))) = false) ∧
        truthy kv = true ∧
        completeTriple (getAzureKeyvaultSecret w (kv.getD (""))) = true ∧
        (c.endpoint, c.access_key, c.secret_key) =
          getAzureKeyvaultSecret w (kv.getD ("")))) := by
  refine ⟨?_, ?_, ?_, ?_⟩
  · intro h1
    exact initWrapper_explicit w sn ns kv secure cc h1
  · intro h1 hg hk
    exact initWrapper_k8s_wins w kv secure cc h1 hg hk
  · intro h1 hki hvg hv
    by_cases hg : (truthy sn && truthy ns) = true
    · rw [initWrapper_k8s_then_kv_wins w secure cc h1 hg (hki hg) hvg hv]
    · have hgf : (truthy sn && truthy ns) = false := by simpa using hg
      rw [initWrapper_kv_wins w secure cc h1 hgf hvg hv]
  · intro c hc
    by_cases h1 : completeTriple (e, a, s) = true
    · rw [initWrapper_explicit w sn ns kv secure cc h1] at hc
      simp only [Except.ok.injEq] at hc
      left
      exact ⟨h1, by rw [← hc]⟩
    · have h1f : completeTriple (e, a, s) = false := by simpa using h1
      by_cases hg : (truthy sn && truthy ns) = true
      · by_cases hk :
          completeTriple (getK8sSecret w (sn.getD ("")) (ns.getD (""))) = true
        · rw [initWrapper_k8s_wins w kv secure cc h1f hg hk] at hc
          simp only [Except.ok.injEq] at hc
          right; left
          exact ⟨h1f, hg, hk, by rw [← hc]⟩
        · have hkf : completeTriple
              (getK8sSecret w (sn.getD ("")) (ns.getD (""))) = false := by
            simpa using hk
          by_cases hvg : truthy kv = true
          · by_cases hv :
              completeTriple (getAzureKeyvaultSecret w (kv.getD (""))) = true
            · rw [initWrapper_k8s_then_kv_wins w secure cc h1f hg hkf hvg hv]
                at hc
              simp only [Except.ok.injEq] at hc
              right; right
              exact ⟨h1f, fun _ => hkf, hvg, hv, by rw [← hc]⟩
            · have hvf : completeTriple
                  (getAzureKeyvaultSecret w (kv.getD (""))) = false := by
                simpa using hv
              rw [initWrapper_k8s_then_kv_fail w secure cc h1f hg hkf hvg hvf]
                at hc
              simp at hc
          · have hvgf : truthy kv = false := by simpa using hvg
            rw [initWrapper_k8s_then_skip w secure cc h1f hg hkf hvgf] at hc
            simp at hc
      · have hgf : (truthy sn && truthy ns) = false := by simpa using hg
        by_cases hvg : truthy kv = true
        · by_cases hv :
            completeTriple (getAzureKeyvaultSecret w (kv.getD (""))) = true
          · rw [initWrapper_kv_wins w secure cc h1f hgf hvg hv] at hc
            simp only [Except.ok.injEq] at hc
            right; right
            refine ⟨h1f, ?_, hvg, hv, by rw [← hc]⟩
            intro hgt
            rw [hgf] at hgt
            cases hgt
          · have hvf : completeTriple
                (getAzureKeyvaultSecret w (kv.getD (""))) = false := by
              simpa using hv
            rw [initWrapper_kv_fail w secure cc h1f hgf hvg hvf] at hc
            simp at hc
        · have hvgf : truthy kv = false := by simpa using hvg
          rw [initWrapper_all_skip w secure cc h1f hgf hvgf] at hc
          simp at hc

/-- Witness for C1: with fully-populated explicit arguments, the client is
built from them and the consultation log is empty, even in a world where
every lookup would fail. -/
theorem c1_witness :
    initWrapper failWorld (some ("play.min.io")) (some ("AK")) (some ("SK"))
      (some ("minio-secret")) (some ("default")) (some ("my-keyvault"))
      true true =
      (Except.ok ⟨some ("play.min.io"), some ("AK"), some ("SK"), true, true⟩,
        []) :=
  (c1_credential_resolution_short_circuits failWorld (some ("play.min.io"))
    (some ("AK")) (some ("SK")) (some ("minio-secret")) (some ("default"))
    (some ("my-keyvault")) true true).1 (by decide)

/-- C2: when no source yields a complete triple, `__init__` raises the
`ValueError` naming all three sources, and no `Minio` client is
constructed. -/
theorem c2_exhaustion_raises_config_error (w : CredWorld)
    (e a s sn ns kv : Option String) (secure cc : Bool)
    (h1 : completeTriple (e, a, s) = false)
    (h2 : (truthy sn && truthy ns) = true →
      completeTriple (getK8sSecret w (sn.getD ("")) (ns.getD (""))) = false)
    (h3 : truthy kv = true →
      completeTriple (getAzureKeyvaultSecret w (kv.getD (""))) = false) :
    (initWrapper w e a s sn ns kv secure cc).1 =
      Except.error credentialsErrorMsg ∧
    ∀ c : Minio, (initWrapper w e a s sn ns kv secure cc).1 ≠ Except.ok c := by
  have herr : (initWrapper w e a s sn ns kv secure cc).1 =
      Except.error credentialsErrorMsg := by
    by_cases hg : (truthy sn && truthy ns) = true
    · by_cases hvg : truthy kv = true
      · rw [initWrapper_k8s_then_kv_fail w secure cc h1 hg (h2 hg) hvg (h3 hvg)]
      · have hvgf : truthy kv = false := by simpa using hvg
        rw [initWrapper_k8s_then_skip w secure cc h1 hg (h2 hg) hvgf]
    · have hgf : (truthy sn && truthy ns) = false := by simpa using hg
      by_cases hvg : truthy kv = true
      · rw [initWrapper_kv_fail w secure cc h1 hgf hvg (h3 hvg)]
      · have hvgf : truthy kv = false := by simpa using hvg
        rw [initWrapper_all_skip w secure cc h1 hgf hvgf]
  refine ⟨herr, fun c hc => ?_⟩
  rw [herr] at hc
  cases hc

/-- Witness for C2: no arguments at all, in a world where every lookup
raises: construction fails with the exhaustion `ValueError`. -/
theorem c2_witness :
    (initWrapper failWorld none none none none none none true true).1 =
      Except.error credentialsErrorMsg :=
  (c2_exhaustion_raises_config_error failWorld none none none none none none
    true true (by decide) (by decide) (by decide)).1

/-- C3: an exception at any stage of `_get_k8s_secret`'s `try` block is
swallowed and the lookup returns `(None, None, None)`; likewise for
`_get_azure_keyvault_secret`; when the Kubernetes lookup raises while the
Key Vault source is configured, resolution proceeds to the Key Vault
lookup; and no exception other than the exhaustion `ValueError` ever
escapes `__init__`. -/
theorem c3_lookup_exceptions_swallowed (w : CredWorld) (snS nsS kvS msg m :
    String) (e a s sn ns kv : Option String) (secure cc : Bool) :
    (getK8sSecretTry w snS nsS = Except.error msg →
      getK8sSecret w snS nsS = (none, none, none)) ∧
    (getAzureKeyvaultSecretTry w kvS = Except.error msg →
      getAzureKeyvaultSecret w kvS = (none, none, none)) ∧
    (completeTriple (e, a, s) = false → (truthy sn && truthy ns) = true →
      getK8sSecretTry w (sn.getD ("")) (ns.getD ("")) = Except.error msg →
      truthy kv = true →
      CredSource.keyvault ∈ (initWrapper w e a s sn ns kv secure cc).2) ∧
    ((initWrapper w e a s sn ns kv secure cc).1 = Except.error m →
      m = credentialsErrorMsg) := by
  refine ⟨?_, ?_, ?_, ?_⟩
  · intro h
    unfold getK8sSecret
    rw [h]
  · intro h
    unfold getAzureKeyvaultSecret
    rw [h]
  · intro h1 hg htry hvg
    have hk : getK8sSecret w (sn.getD ("")) (ns.getD ("")) =
        (none, none, none) := by
      unfold getK8sSecret
      rw [htry]
    have hkf : completeTriple (getK8sSecret w (sn.getD ("")) (ns.getD (""))) =
        false := by
      rw [hk]
      rfl
    by_cases hv : completeTriple (getAzureKeyvaultSecret w (kv.getD (""))) =
        true
    · rw [initWrapper_k8s_then_kv_wins w secure cc h1 hg hkf hvg hv]
      simp
    · have hvf : completeTriple (getAzureKeyvaultSecret w (kv.getD (""))) =
          false := by simpa using hv
      rw [initWrapper_k8s_then_kv_fail w secure cc h1 hg hkf hvg hvf]
      simp
  · exact initWrapper_error_msg w e a s sn ns kv secure cc m

/-- Witness for C3: in the all-raising world, both lookups return the empty
triple, and with a Kubernetes secret and a Key Vault configured, the Key
Vault lookup is still reached after the Kubernetes stage raises. -/
theorem c3_witness :
    getK8sSecret failWorld ("minio-secret") ("default") =
      (none, none, none) ∧
    getAzureKeyvaultSecret failWorld ("my-keyvault") = (none, none, none) ∧
    CredSource.keyvault ∈
      (initWrapper failWorld none none none (some ("minio-secret"))
        (some ("default")) (some ("my-keyvault")) true true).2 := by
  have h := c3_lookup_exceptions_swallowed failWorld ("minio-secret")
    ("default") ("my-keyvault") ("ConfigException") credentialsErrorMsg
    none none none (some ("minio-secret")) (some ("default"))
    (some ("my-keyvault")) true true
  have h2 := c3_lookup_exceptions_swallowed failWorld ("minio-secret")
    ("default") ("my-keyvault") ("CredentialUnavailableError")
    credentialsErrorMsg none none none (some ("minio-secret"))
    (some ("default")) (some ("my-keyvault")) true true
  exact ⟨h.1 rfl, h2.2.1 rfl, h.2.2.1 rfl (by decide) rfl (by decide)⟩

/-- C5: the triple a constructed client is built from comes entirely from a
single source (explicit arguments, the Kubernetes lookup, or the Key Vault
lookup), never a mixture; and a partial Kubernetes yield triggers the Key
Vault lookup. -/
theorem c5_no_partial_credentials_merged (w : CredWorld)
    (e a s sn ns kv : Option String) (secure cc : Bool) :
    (∀ c : Minio, (initWrapper w e a s sn ns kv secure cc).1 = Except.ok c →
      (c.endpoint, c.access_key, c.secret_key) = (e, a, s) ∨
      (c.endpoint, c.access_key, c.secret_key) =
        getK8sSecret w (sn.getD ("")) (ns.getD ("")) ∨
      (c.endpoint, c.access_key, c.secret_key) =
        getAzureKeyvaultSecret w (kv.getD (""))) ∧
    (completeTriple (e, a, s) = false → (truthy sn && truthy ns) = true →
      completeTriple (getK8sSecret w (sn.getD ("")) (ns.getD (""))) = false →
      truthy kv = true →
      CredSource.keyvault ∈ (initWrapper w e a s sn ns kv secure cc).2) := by
  constructor
  · intro c hc
    by_cases h1 : completeTriple (e, a, s) = true
    · rw [initWrapper_explicit w sn ns kv secure cc h1] at hc
      simp only [Except.ok.injEq] at hc
      left
      rw [← hc]
    · have h1f : completeTriple (e, a, s) = false := by simpa using h1
      by_cases hg : (truthy sn && truthy ns) = true
      · by_cases hk :
          completeTriple (getK8sSecret w (sn.getD ("")) (ns.getD (""))) = true
        · rw [initWrapper_k8s_wins w kv secure cc h1f hg hk] at hc
          simp only [Except.ok.injEq] at hc
          right; left
          rw [← hc]
        · have hkf : completeTriple
              (getK8sSecret w (sn.getD ("")) (ns.getD (""))) = false := by
            simpa using hk
          by_cases hvg : truthy kv = true
          · by_cases hv :
              completeTriple (getAzureKeyvaultSecret w (kv.getD (""))) = true
            · rw [initWrapper_k8s_then_kv_wins w secure cc h1f hg hkf hvg hv]
                at hc
              simp only [Except.ok.injEq] at hc
              right; right
              rw [← hc]
            · have hvf : completeTriple
                  (getAzureKeyvaultSecret w (kv.getD (""))) = false := by
                simpa using hv
              rw [initWrapper_k8s_then_kv_fail w secure cc h1f hg hkf hvg hvf]
                at hc
              simp at hc
          · have hvgf : truthy kv = false := by simpa using hvg
            rw [initWrapper_k8s_then_skip w secure cc h1f hg hkf hvgf] at hc
            simp at hc
      · have hgf : (truthy sn && truthy ns) = false := by simpa using hg
        by_cases hvg : truthy kv = true
        · by_cases hv :
            completeTriple (getAzureKeyvaultSecret w (kv.getD (""))) = true
          · rw [initWrapper_kv_wins w secure cc h1f hgf hvg hv] at hc
            simp only [Except.ok.injEq] at hc
            right; right
            rw [← hc]
          · have hvf : completeTriple
                (getAzureKeyvaultSecret w (kv.getD (""))) = false := by
              simpa using hv
            rw [initWrapper_kv_fail w secure cc h1f hgf hvg hvf] at hc
            simp at hc
        · have hvgf : truthy kv = false := by simpa using hvg
          rw [initWrapper_all_skip w secure cc h1f hgf hvgf] at hc
          simp at hc
  · intro h1 hg hkf hvg
    by_cases hv : completeTriple (getAzureKeyvaultSecret w (kv.getD (""))) =
        true
    · rw [initWrapper_k8s_then_kv_wins w secure cc h1 hg hkf hvg hv]
      simp
    · have hvf : completeTriple (getAzureKeyvaultSecret w (kv.getD (""))) =
          false := by simpa using hv
      rw [initWrapper_k8s_then_kv_fail w secure cc h1 hg hkf hvg hvf]
      simp

/-- Witness for C5: in the world where both lookups raise, a partially
explicit call (secret key missing) that falls through a raising Kubernetes
lookup still reaches the Key Vault lookup. -/
theorem c5_witness :
    CredSource.keyvault ∈
      (initWrapper failWorld (some ("play.min.io")) (some ("AK")) none
        (some ("minio-secret")) (some ("default")) (some ("my-keyvault"))
        true true).2 :=
  (c5_no_partial_credentials_merged failWorld (some ("play.min.io"))
    (some ("AK")) none (some ("minio-secret")) (some ("default"))
    (some ("my-keyvault")) true true).2 (by decide) (by decide) (by decide)
    (by decide)

/-- C9: the Kubernetes source is consulted only when both `secret_name` and
`namespace` are truthy; otherwise it is skipped and `__init__` behaves
exactly as if those arguments were absent.  Likewise the Key Vault source
is consulted only when `keyvault_name` is truthy. -/
theorem c9_lookup_gating (w : CredWorld) (e a s sn ns kv : Option String)
    (secure cc : Bool) :
    ((truthy sn && truthy ns) = false →
      CredSource.k8s ∉ (initWrapper w e a s sn ns kv secure cc).2 ∧
      initWrapper w e a s sn ns kv secure cc =
        initWrapper w e a s none none kv secure cc) ∧
    (truthy kv = false →
      CredSource.keyvault ∉ (initWrapper w e a s sn ns kv secure cc).2 ∧
      initWrapper w e a s sn ns kv secure cc =
        initWrapper w e a s sn ns none secure cc) := by
  have hnonegate : (truthy (none : Option String) &&
      truthy (none : Option String)) = false := rfl
  have hnonekv : truthy (none : Option String) = false := rfl
  constructor
  · intro hgf
    by_cases h1 : completeTriple (e, a, s) = true
    · rw [initWrapper_explicit w sn ns kv secure cc h1,
        initWrapper_explicit w none none kv secure cc h1]
      simp
    · have h1f : completeTriple (e, a, s) = false := by simpa using h1
      by_cases hvg : truthy kv = true
      · by_cases hv :
          completeTriple (getAzureKeyvaultSecret w (kv.getD (""))) = true
        · rw [initWrapper_kv_wins w secure cc h1f hgf hvg hv,
            initWrapper_kv_wins w secure cc h1f hnonegate hvg hv]
          simp
        · have hvf : completeTriple
              (getAzureKeyvaultSecret w (kv.getD (""))) = false := by
            simpa using hv
          rw [initWrapper_kv_fail w secure cc h1f hgf hvg hvf,
            initWrapper_kv_fail w secure cc h1f hnonegate hvg hvf]
          simp
      · have hvgf : truthy kv = false := by simpa using hvg
        rw [initWrapper_all_skip w secure cc h1f hgf hvgf,
          initWrapper_all_skip w secure cc h1f hnonegate hvgf]
        simp
  · intro hvgf
    by_cases h1 : completeTriple (e, a, s) = true
    · rw [initWrapper_explicit w sn ns kv secure cc h1,
        initWrapper_explicit w sn ns none secure cc h1]
      simp
    · have h1f : completeTriple (e, a, s) = false := by simpa using h1
      by_cases hg : (truthy sn && truthy ns) = true
      · by_cases hk :
          completeTriple (getK8sSecret w (sn.getD ("")) (ns.getD (""))) = true
        · rw [initWrapper_k8s_wins w kv secure cc h1f hg hk,
            initWrapper_k8s_wins w none secure cc h1f hg hk]
          simp
        · have hkf : completeTriple
              (getK8sSecret w (sn.getD ("")) (ns.getD (""))) = false := by
            simpa using hk
          rw [initWrapper_k8s_then_skip w secure cc h1f hg hkf hvgf,
            initWrapper_k8s_then_skip w secure cc h1f hg hkf hnonekv]
          simp
      · have hgf : (truthy sn && truthy ns) = false := by simpa using hg
        rw [initWrapper_all_skip w secure cc h1f hgf hvgf,
          initWrapper_all_skip w secure cc h1f hgf hnonekv]
        simp

/-- Witness for C9: with a `secret_name` but no `namespace`, the Kubernetes
lookup is skipped even in a world where it would succeed, and the result
is the same as when neither is given. -/
theorem c9_witness :
    CredSource.k8s ∉
      (initWrapper okWorld none none none (some ("minio-secret")) none none
        true true).2 ∧
    initWrapper okWorld none none none (some ("minio-secret")) none none
        true true =
      initWrapper okWorld none none none none none none true true :=
  (c9_lookup_gating okWorld none none none (some ("minio-secret")) none none
    true true).1 (by decide)

/-- C8: a successful Kubernetes lookup reads the named secret in the named
namespace, base64-decodes the payload under key `minio`, JSON-parses it
and extracts `host`/`id`/`secret`; a successful Key Vault lookup fetches
the fixed-name secret `minio-credentials` from the vault URL formed from
the given vault name and extracts the same three fields. -/
theorem c8_secret_payload_contract (w : CredWorld)
    (sn ns kvn rawb64 decoded kvval : String) (sec : K8sSecret)
    (js jv : Json) :
    (w.loadInclusterConfig = Except.ok () →
      w.readNamespacedSecret sn ns = Except.ok sec →
      sec.data ("minio") = some rawb64 →
      w.b64decodeUtf8 rawb64 = Except.ok decoded →
      w.jsonLoads decoded = Except.ok js →
      getK8sSecret w sn ns =
        (js.get ("host"), js.get ("id"), js.get ("secret"))) ∧
    (w.defaultAzureCredential = Except.ok () →
      w.getVaultSecret ("https://" ++ kvn ++ ".vault.azure.net")
        ("minio-credentials") = Except.ok kvval →
      w.jsonLoads kvval = Except.ok jv →
      getAzureKeyvaultSecret w kvn =
        (jv.get ("host"), jv.get ("id"), jv.get ("secret"))) := by
  constructor
  · intro h1 h2 h3 h4 h5
    simp [getK8sSecret, getK8sSecretTry, h1, h2, h3, h4, h5]
  · intro h1 h2 h3
    simp [getAzureKeyvaultSecret, getAzureKeyvaultSecretTry, h1, h2, h3]

/-- Witness for C8: in the all-succeeding world both lookups produce the
triple extracted from the parsed payload. -/
theorem c8_witness :
    getK8sSecret okWorld ("minio-secret") ("default") =
      (some ("minio.local"), some ("AK"), some ("SK")) ∧
    getAzureKeyvaultSecret okWorld ("my-keyvault") =
      (some ("minio.local"), some ("AK"), some ("SK")) := by
  have h := c8_secret_payload_contract okWorld ("minio-secret") ("default")
    ("my-keyvault") ("eyJob3N0IjogLi4ufQ==") ("decoded-payload")
    ("vault-payload")
    ⟨fun k => if k = "minio" then some ("eyJob3N0IjogLi4ufQ==") else none⟩
    okJson okJson
  exact ⟨(h.1 rfl rfl rfl rfl rfl).trans rfl, (h.2 rfl rfl rfl).trans rfl⟩

/-- C4: against the reference bucket model, two successive `create_bucket`
calls on the same name issue exactly one underlying `make_bucket` when the
bucket did not exist, and none when it already existed (the second call,
and any call on an existing bucket, is a no-op after the existence
check). -/
theorem c4_create_bucket_idempotent (s : List String) (b : String) :
    (s.contains b = false →
      MinioClientWrapper.create_bucket minioModel s b =
        (Except.ok (b :: s),
          [ApiCall.bucket_exists b, ApiCall.make_bucket b]) ∧
      MinioClientWrapper.create_bucket minioModel (b :: s) b =
        (Except.ok (b :: s), [ApiCall.bucket_exists b]) ∧
      creationCalls ((MinioClientWrapper.create_bucket minioModel s b).2 ++
        (MinioClientWrapper.create_bucket minioModel (b :: s) b).2) = 1) ∧
    (s.contains b = true →
      MinioClientWrapper.create_bucket minioModel s b =
        (Except.ok s, [ApiCall.bucket_exists b]) ∧
      creationCalls ((MinioClientWrapper.create_bucket minioModel s b).2 ++
        (MinioClientWrapper.create_bucket minioModel s b).2) = 0) := by
  constructor
  · intro h
    have h' : b ∉ s := by simpa using h
    have e1 : MinioClientWrapper.create_bucket minioModel s b =
        (Except.ok (b :: s),
          [ApiCall.bucket_exists b, ApiCall.make_bucket b]) := by
      simp [MinioClientWrapper.create_bucket, MinioClientWrapper.bucket_exists,
        minioModel, h']
    have e2 : MinioClientWrapper.create_bucket minioModel (b :: s) b =
        (Except.ok (b :: s), [ApiCall.bucket_exists b]) := by
      simp [MinioClientWrapper.create_bucket, MinioClientWrapper.bucket_exists,
        minioModel]
    refine ⟨e1, e2, ?_⟩
    rw [e1, e2]
    rfl
  · intro h
    have h' : b ∈ s := by simpa using h
    have e1 : MinioClientWrapper.create_bucket minioModel s b =
        (Except.ok s, [ApiCall.bucket_exists b]) := by
      simp [MinioClientWrapper.create_bucket, MinioClientWrapper.bucket_exists,
        minioModel, h']
    refine ⟨e1, ?_⟩
    rw [e1]
    rfl

/-- Witness for C4: creating `my-bucket` twice from the empty store issues
exactly one `make_bucket`. -/
theorem c4_witness :
    MinioClientWrapper.create_bucket minioModel [] ("my-bucket") =
      (Except.ok [("my-bucket")],
        [ApiCall.bucket_exists ("my-bucket"),
          ApiCall.make_bucket ("my-bucket")]) ∧
    MinioClientWrapper.create_bucket minioModel [("my-bucket")]
        ("my-bucket") =
      (Except.ok [("my-bucket")], [ApiCall.bucket_exists ("my-bucket")]) ∧
    creationCalls
      ((MinioClientWrapper.create_bucket minioModel [] ("my-bucket")).2 ++
        (MinioClientWrapper.create_bucket minioModel [("my-bucket")]
          ("my-bucket")).2) = 1 :=
  (c4_create_bucket_idempotent [] ("my-bucket")).1 (by decide)

/-- C6: every facade operation is a single delegation whose trace is
exactly one underlying call (`create_bucket` excepted: its trace is the
existence pre-check optionally followed by one creation call), and any
error raised by the underlying client is returned unchanged. -/
theorem c6_operation_errors_propagate {σ : Type} (api : MinioAPI σ) (st : σ)
    (b o f e : String) (pre : Option String) :
    ((MinioClientWrapper.bucket_exists api st b).2 =
        [ApiCall.bucket_exists b] ∧
      (api.bucket_exists st b = Except.error e →
        (MinioClientWrapper.bucket_exists api st b).1 = Except.error e)) ∧
    ((MinioClientWrapper.upload_file api st b o f).2 =
        [ApiCall.fput_object b o f] ∧
      (api.fput_object st b o f = Except.error e →
        (MinioClientWrapper.upload_file api st b o f).1 = Except.error e)) ∧
    ((MinioClientWrapper.download_file api st b o f).2 =
        [ApiCall.fget_object b o f] ∧
      (api.fget_object st b o f = Except.error e →
        (MinioClientWrapper.download_file api st b o f).1 =
          Except.error e)) ∧
    ((MinioClientWrapper.list_objects api st b pre).2 =
        [ApiCall.list_objects b pre] ∧
      (api.list_objects st b pre = Except.error e →
        (MinioClientWrapper.list_objects api st b pre).1 =
          Except.error e)) ∧
    ((MinioClientWrapper.delete_object api st b o).2 =
        [ApiCall.remove_object b o] ∧
      (api.remove_object st b o = Except.error e →
        (MinioClientWrapper.delete_object api st b o).1 =
          Except.error e)) ∧
    ((MinioClientWrapper.delete_bucket api st b).2 =
        [ApiCall.remove_bucket b] ∧
      (api.remove_bucket st b = Except.error e →
        (MinioClientWrapper.delete_bucket api st b).1 = Except.error e)) ∧
    ((api.bucket_exists st b = Except.error e →
        MinioClientWrapper.create_bucket api st b =
          (Except.error e, [ApiCall.bucket_exists b])) ∧
      (∀ s1 : σ, api.bucket_exists st b = Except.ok (false, s1) →
        api.make_bucket s1 b = Except.error e →
        MinioClientWrapper.create_bucket api st b =
          (Except.error e,
            [ApiCall.bucket_exists b, ApiCall.make_bucket b])) ∧
      ((MinioClientWrapper.create_bucket api st b).2 =
          [ApiCall.bucket_exists b] ∨
        (MinioClientWrapper.create_bucket api st b).2 =
          [ApiCall.bucket_exists b, ApiCall.make_bucket b])) := by
  refine ⟨⟨rfl, fun h => h⟩, ⟨rfl, fun h => h⟩, ⟨rfl, fun h => h⟩,
    ⟨rfl, ?_⟩, ⟨rfl, fun h => h⟩, ⟨rfl, fun h => h⟩, ?_, ?_, ?_⟩
  · intro h
    simp [MinioClientWrapper.list_objects, h]
  · intro h
    simp [MinioClientWrapper.create_bucket, MinioClientWrapper.bucket_exists,
      h]
  · intro s1 hok hmk
    simp [MinioClientWrapper.create_bucket, MinioClientWrapper.bucket_exists,
      hok, hmk]
  · cases happ : api.bucket_exists st b with
    | error err =>
      left
      simp [MinioClientWrapper.create_bucket,
        MinioClientWrapper.bucket_exists, happ]
    | ok pr =>
      obtain ⟨bb, s1⟩ := pr
      cases bb
      · right
        cases hm : api.make_bucket s1 b <;>
          simp [MinioClientWrapper.create_bucket,
            MinioClientWrapper.bucket_exists, happ, hm]
      · left
        simp [MinioClientWrapper.create_bucket,
          MinioClientWrapper.bucket_exists, happ]

/-- Witness for C6: against the all-raising client, `bucket_exists` returns
the underlying `S3Error` unchanged and `create_bucket` stops at the failed
pre-check. -/
theorem c6_witness :
    (MinioClientWrapper.bucket_exists failApi () ("b")).1 =
      Except.error ("S3Error") ∧
    MinioClientWrapper.create_bucket failApi () ("b") =
      (Except.error ("S3Error"), [ApiCall.bucket_exists ("b")]) := by
  have h := c6_operation_errors_propagate failApi () ("b") ("o") ("f")
    ("S3Error") none
  exact ⟨h.1.2 rfl, h.2.2.2.2.2.2.1 rfl⟩

/-- C7: `list_objects` maps each object the underlying client yields to its
name, preserving order and neither filtering nor adding elements; in
particular, when every yielded object matches the prefix, every returned
name does. -/
theorem c7_list_objects_names_in_order {σ : Type} (api : MinioAPI σ)
    (st : σ) (b p : String) (objs : List MinioObj) (s1 : σ)
    (h : api.list_objects st b (some p) = Except.ok (objs, s1)) :
    MinioClientWrapper.list_objects api st b (some p) =
      (Except.ok (objs.map (fun o => o.object_name), s1),
        [ApiCall.list_objects b (some p)]) ∧
    ((∀ o ∈ objs, (o.object_name).startsWith p = true) →
      ∀ n ∈ objs.map (fun o => o.object_name), n.startsWith p = true) := by
  constructor
  · simp [MinioClientWrapper.list_objects, h]
  · intro hall n hn
    rcases List.mem_map.mp hn with ⟨o, ho, rfl⟩
    exact hall o ho

/-- Witness for C7: the two objects yielded under `docs/` come back as
their names, in order. -/
theorem c7_witness :
    MinioClientWrapper.list_objects listApi () ("my-bucket")
        (some ("docs/")) =
      (Except.ok ([("docs/a.txt"), ("docs/b.txt")], ()),
        [ApiCall.list_objects ("my-bucket") (some ("docs/"))]) :=
  (c7_list_objects_names_in_order listApi () ("my-bucket") ("docs/")
    [⟨("docs/a.txt")⟩, ⟨("docs/b.txt")⟩] () rfl).1

/-- C10: `make_bucket` is never invoked unless the existence check returned
`false`; when the existence check raises, `create_bucket` propagates the
error and performs no creation call. -/
theorem c10_no_creation_when_check_fails {σ : Type} (api : MinioAPI σ)
    (st : σ) (b e : String) :
    (api.bucket_exists st b = Except.error e →
      MinioClientWrapper.create_bucket api st b =
        (Except.error e, [ApiCall.bucket_exists b])) ∧
    (ApiCall.make_bucket b ∈ (MinioClientWrapper.create_bucket api st b).2 →
      ∃ s1 : σ, api.bucket_exists st b = Except.ok (false, s1)) := by
  constructor
  · intro h
    simp [MinioClientWrapper.create_bucket, MinioClientWrapper.bucket_exists,
      h]
  · intro hmem
    cases happ : api.bucket_exists st b with
    | error err =>
      simp [MinioClientWrapper.create_bucket,
        MinioClientWrapper.bucket_exists, happ] at hmem
    | ok pr =>
      obtain ⟨bb, s1⟩ := pr
      cases bb
      · exact ⟨s1, rfl⟩
      · simp [MinioClientWrapper.create_bucket,
          MinioClientWrapper.bucket_exists, happ] at hmem

/-- Witness for C10: with the all-raising client, `create_bucket` fails at
the pre-check with no `make_bucket` in its trace. -/
theorem c10_witness :
    MinioClientWrapper.create_bucket failApi () ("bkt") =
      (Except.error ("S3Error"), [ApiCall.bucket_exists ("bkt")]) :=
  (c10_no_creation_when_check_fails failApi () ("bkt") ("S3Error")).1 rfl

